import Mathlib

/-!
Verification of the sys_stress_node stress-testing suite.

Each Python function referenced by the claims is translated into an
executable Lean definition (floats become rationals, fallible attribute
accesses become Option matches returning an explicit Python-error marker,
external collaborators such as psutil and the load-generator start results
become explicit inputs).  The theorems at the end of the file settle the
claimed properties of those definitions.
-/

/-! ## Sequence tracking (message_stress_subscriber.py) -/

/-- Per-topic sequence-tracking state: the slice of the per-topic metrics
dict touched by MessageStressSubscriber._track_sequence_number.  The dict is
initialised with last_sequence = -1 and zero lost and duplicate counters. -/
structure TopicSeqMetrics where
  last_sequence : ℤ
  lost_messages : ℕ
  duplicate_messages : ℕ
deriving Repr, DecidableEq

def initialTopicSeqMetrics : TopicSeqMetrics :=
  { last_sequence := -1, lost_messages := 0, duplicate_messages := 0 }

/-- Translation of MessageStressSubscriber._track_sequence_number: when
last_sequence >= 0, a sequence number above last_sequence + 1 adds the gap
to the lost counter and one below last_sequence + 1 increments the
duplicate counter; in every case last_sequence is then set to
max last_sequence seq. -/
def trackSequenceNumber (m : TopicSeqMetrics) (seq : ℤ) : TopicSeqMetrics :=
  let m1 :=
    if 0 ≤ m.last_sequence then
      let expectedNext := m.last_sequence + 1
      if expectedNext < seq then
        { m with lost_messages := m.lost_messages + (seq - expectedNext).toNat }
      else if seq < expectedNext then
        { m with duplicate_messages := m.duplicate_messages + 1 }
      else m
    else m
  { m1 with last_sequence := max m1.last_sequence seq }

/-- Feeding a whole list of sequence numbers to the tracker, starting from
the freshly initialised per-topic metrics. -/
def runSequenceTracker (l : List ℤ) : TopicSeqMetrics :=
  l.foldl trackSequenceNumber initialTopicSeqMetrics

/-- State of the spec-level sequence tracker of claim C1: the last sequence
number is absent before the first observation, together with the cumulative
lost and duplicate counts the claim prescribes. -/
structure SpecSeqState where
  last : Option ℤ
  lost : ℕ
  dup : ℕ
deriving Repr, DecidableEq

/-- Spec-side comparison model for claim C1 (written from the claim text,
not from the source): the first observation initialises the last sequence
number to the observed value with zero deltas; afterwards a value above
last + 1 adds the gap to the lost count and advances, a value at most last
increments the duplicate count and leaves last unchanged, and exactly
last + 1 advances with no deltas. -/
def specObserve (st : SpecSeqState) (seq : ℤ) : SpecSeqState :=
  match st.last with
  | none => { st with last := some seq }
  | some lastSeq =>
      if lastSeq + 1 < seq then
        { st with last := some seq, lost := st.lost + (seq - (lastSeq + 1)).toNat }
      else if seq ≤ lastSeq then
        { st with dup := st.dup + 1 }
      else
        { st with last := some seq }

def runSpecTracker (l : List ℤ) : SpecSeqState :=
  l.foldl specObserve { last := none, lost := 0, dup := 0 }

/-! ## Statistics summary (baseline_collector.py, _calculate_statistics) -/

/-- Result dict of BaselineCollector._calculate_statistics.  The std field
is the square root of the sample variance (Python statistics.stdev), hence
real-valued; the other fields are exact rationals. -/
structure StatSummary where
  min : ℚ
  max : ℚ
  mean : ℚ
  std : ℝ
  median : ℚ

/-- Python builtin min over a list of numbers (0 for the empty list, which
the source never reaches thanks to its emptiness guard). -/
def pyListMin : List ℚ → ℚ
  | [] => 0
  | x :: xs => xs.foldl Min.min x

/-- Python builtin max over a list of numbers (0 for the empty list). -/
def pyListMax : List ℚ → ℚ
  | [] => 0
  | x :: xs => xs.foldl Max.max x

/-- Python statistics.mean: sum divided by length. -/
def listMean (l : List ℚ) : ℚ := l.sum / l.length

/-- Python statistics.median: middle element of the sorted list for odd
length, mean of the two middle elements for even length. -/
def listMedian (l : List ℚ) : ℚ :=
  let sorted := l.mergeSort (fun a b => a ≤ b)
  let n := l.length
  if n % 2 = 1 then sorted.getD (n / 2) 0
  else (sorted.getD (n / 2 - 1) 0 + sorted.getD (n / 2) 0) / 2

/-- Sample variance with Bessel correction, the square of Python
statistics.stdev (stdev uses the mean of the same data). -/
def sampleVariance (l : List ℚ) : ℚ :=
  ((l.map (fun x => (x - listMean l) ^ 2)).sum) / ((l.length : ℚ) - 1)

/-- Translation of BaselineCollector._calculate_statistics: an empty input
yields the all-zero summary (not an error); otherwise min, max, mean and
median of the values, and the sample standard deviation when there are at
least two values (0.0 otherwise, mirroring the len > 1 guard). -/
noncomputable def calculateStatistics (values : List ℚ) : StatSummary :=
  if values = [] then
    { min := 0, max := 0, mean := 0, std := 0, median := 0 }
  else
    { min := pyListMin values
      max := pyListMax values
      mean := listMean values
      std := if values.length ≤ 1 then 0 else Real.sqrt (sampleVariance values)
      median := listMedian values }

/-! ## Measurement quality (baseline_collector.py, _determine_measurement_quality) -/

/-- Translation of BaselineCollector._determine_measurement_quality with its
hard-coded minimums (60 seconds, 30 samples). -/
def determineMeasurementQuality (stabilityScore : ℚ) (duration : ℚ)
    (sampleCount : ℕ) : String :=
  let minDuration : ℚ := 60
  let minSamples : ℕ := 30
  if 9/10 ≤ stabilityScore ∧ minDuration * 3 ≤ duration ∧ minSamples * 3 ≤ sampleCount then
    "excellent"
  else if 8/10 ≤ stabilityScore ∧ minDuration ≤ duration ∧ minSamples ≤ sampleCount then
    "good"
  else if 6/10 ≤ stabilityScore ∧ minDuration * (1/2) ≤ duration then
    "fair"
  else
    "poor"

/-! ## Memory stress tester (memory_stress.py) -/

/-- State of MemoryStressTester that start and stop touch.  The allocated
chunk list is modelled by its length; the worker thread itself is an
external collaborator. -/
structure MemoryStressState where
  is_running : Bool
  stop_event : Bool
  allocated_chunks : ℕ
  total_allocated_mb : ℤ
deriving Repr, DecidableEq

def initialMemoryStressState : MemoryStressState :=
  { is_running := false, stop_event := false, allocated_chunks := 0, total_allocated_mb := 0 }

/-- Safe allocation bound of memory_stress.py: int(available_mb * 0.8).
Python int() truncates, which is the floor for the non-negative values
psutil reports. -/
def maxSafeMb (availableMb : ℚ) : ℤ := ⌊availableMb * (4/5)⌋

/-- Translation of MemoryStressTester.start_stress_test: refuse when a test
is already running, clamp the target to maxSafeMb, reset the state and hand
the (possibly clamped) target to the worker thread.  Returns the new state,
the success flag and the target the worker receives. -/
def startStressTest (availableMb : ℚ) (s : MemoryStressState) (targetMb : ℤ) :
    MemoryStressState × Bool × ℤ :=
  if s.is_running then (s, false, targetMb)
  else
    let target := if maxSafeMb availableMb < targetMb then maxSafeMb availableMb else targetMb
    ({ is_running := true, stop_event := false, allocated_chunks := 0,
       total_allocated_mb := 0 }, true, target)

/-- Translation of MemoryStressTester.stop_stress_test: a no-op returning
False when not running; otherwise sets the stop event, clears the running
flag, frees the chunks and returns True. -/
def stopStressTest (s : MemoryStressState) : MemoryStressState × Bool :=
  if !s.is_running then (s, false)
  else ({ is_running := false, stop_event := true, allocated_chunks := 0,
          total_allocated_mb := 0 }, true)

/-- Translation of the safe-limit handling in memory_stress.main(): a
non-positive target is rejected; a target above maxSafeMb prints a warning
and is clamped before the test starts.  Returns the start result, the
target handed to the worker and the warnings printed. -/
def memoryStressMain (availableMb : ℚ) (targetArg : ℤ) : Bool × ℤ × List String :=
  if targetArg ≤ 0 then (false, targetArg, ["Error: Target memory must be positive"])
  else
    let safe := maxSafeMb availableMb
    let clamped := if safe < targetArg then safe else targetArg
    let warns : List String :=
      if safe < targetArg then ["Warning: target exceeds safe limit"] else []
    let r := startStressTest availableMb initialMemoryStressState clamped
    (r.2.1, r.2.2, warns)

/-! ## Metrics collector (metrics_collector.py) -/

/-- SystemSnapshot dataclass of metrics_collector.py. -/
structure SystemSnapshot where
  timestamp : ℚ
  cpu_percent : ℚ
  memory_percent : ℚ
  memory_available_mb : ℚ
  network_bytes_sent : ℕ
  network_bytes_recv : ℕ
  disk_io_read : ℕ
  disk_io_write : ℕ
  load_average : ℚ
deriving Repr, DecidableEq

/-- Latency sub-dict of one current_metrics entry (avg and max are the two
fields _aggregate_current_metrics reads). -/
structure LatencyStats where
  avg : ℚ
  max : ℚ
deriving Repr, DecidableEq

/-- One entry of the current_metrics dict of MetricsCollector, as read by
_aggregate_current_metrics.  hasMessageCount models the presence of the
message_count key; a missing or empty latency_stats dict is none. -/
structure StreamEntry where
  hasMessageCount : Bool
  message_count : ℕ
  throughput_hz : ℚ
  latency_stats : Option LatencyStats
  loss_rate : ℚ
deriving Repr, DecidableEq

/-- AggregatedMetrics dataclass of metrics_collector.py. -/
structure AggregatedMetrics where
  timestamp : ℚ
  total_messages : ℕ
  total_throughput_hz : ℚ
  average_latency_ms : ℚ
  max_latency_ms : ℚ
  overall_loss_rate : ℚ
  active_topics : ℕ
  system_metrics : Option SystemSnapshot
deriving Repr, DecidableEq

/-- Translation of MetricsCollector._aggregate_current_metrics: None when
the current_metrics dict is empty; otherwise entries carrying a
message_count key are summed, latency averages above zero are collected and
averaged, the maximum latency is folded starting from 0, and loss rates at
least 0 are averaged. -/
def aggregateCurrentMetrics (timestamp : ℚ) (sys : Option SystemSnapshot)
    (current : List StreamEntry) : Option AggregatedMetrics :=
  if current = [] then none
  else
    let counted := current.filter (·.hasMessageCount)
    let latencyValues := (counted.filterMap (·.latency_stats)).filterMap
        (fun ls => if 0 < ls.avg then some ls.avg else none)
    let lossRates := (counted.map (·.loss_rate)).filter (fun r => 0 ≤ r)
    some
      { timestamp := timestamp
        total_messages := (counted.map (·.message_count)).sum
        total_throughput_hz := (counted.map (·.throughput_hz)).sum
        average_latency_ms := if latencyValues = [] then 0 else listMean latencyValues
        max_latency_ms :=
          (counted.filterMap (·.latency_stats)).foldl (fun acc ls => Max.max acc ls.max) 0
        overall_loss_rate := if lossRates = [] then 0 else listMean lossRates
        active_topics := counted.length
        system_metrics := sys }

/-- Mutable histories of MetricsCollector touched by a collection tick. -/
structure CollectorState where
  current_metrics : List StreamEntry
  system_history : List SystemSnapshot
  aggregated_history : List AggregatedMetrics
deriving Repr, DecidableEq

/-- Append on a collections.deque with a maxlen: the oldest entries are
evicted from the left once the bound is exceeded. -/
def dequeAppend {α : Type} (maxlen : ℕ) (l : List α) (a : α) : List α :=
  let l2 := l ++ [a]
  if maxlen < l2.length then l2.drop (l2.length - maxlen) else l2

/-- Translation of the retention loops of _cleanup_old_data: entries are
popped from the left while the front timestamp is below the cutoff. -/
def pruneByTime {α : Type} (ts : α → ℚ) (cutoff : ℚ) : List α → List α
  | [] => []
  | a :: t => if ts a < cutoff then pruneByTime ts cutoff t else a :: t

/-- Translation of MetricsCollector._collect_metrics: sample the system
monitor if enabled, aggregate the current per-stream metrics, append the
produced snapshot (if any) to the bounded aggregated history and prune both
histories by the retention cutoff.  Alert checking and CSV export operate
on the returned snapshot and do not touch this state. -/
def collectMetrics (retention : ℚ) (maxlen : ℕ) (enableSysMon : Bool)
    (t : ℚ) (sysSample : SystemSnapshot) (s : CollectorState) :
    CollectorState × Option AggregatedMetrics :=
  let sys : Option SystemSnapshot := if enableSysMon then some sysSample else none
  let s1 := match sys with
    | some snap => { s with system_history := dequeAppend maxlen s.system_history snap }
    | none => s
  match aggregateCurrentMetrics t sys s.current_metrics with
  | none => (s1, none)
  | some agg =>
      let s2 := { s1 with aggregated_history := dequeAppend maxlen s1.aggregated_history agg }
      let s3 := { s2 with
        aggregated_history :=
          pruneByTime (·.timestamp) (t - retention) s2.aggregated_history,
        system_history :=
          pruneByTime (·.timestamp) (t - retention) s2.system_history }
      (s3, some agg)

/-- One alert record built by _check_performance_alerts (the message string
is omitted; type, severity, value and threshold are kept). -/
structure PerfAlert where
  atype : String
  severity : String
  value : ℚ
  threshold : Option ℚ
deriving Repr, DecidableEq

/-- Translation of MetricsCollector._check_performance_alerts: four
independent strict-inequality rules appending to the alerts list in order
(latency, loss rate, cpu, memory); the cpu and memory rules run only when a
system snapshot is attached. -/
def checkPerformanceAlerts (latencyThreshold lossThreshold : ℚ)
    (m : AggregatedMetrics) : List PerfAlert :=
  let alerts : List PerfAlert := []
  let alerts := if latencyThreshold < m.average_latency_ms then
      alerts ++ [{ atype := "high_latency", severity := "warning",
                   value := m.average_latency_ms, threshold := some latencyThreshold }]
    else alerts
  let alerts := if lossThreshold < m.overall_loss_rate then
      alerts ++ [{ atype := "high_loss_rate", severity := "error",
                   value := m.overall_loss_rate, threshold := some lossThreshold }]
    else alerts
  match m.system_metrics with
  | none => alerts
  | some sys =>
      let alerts := if 90 < sys.cpu_percent then
          alerts ++ [{ atype := "high_cpu", severity := "warning",
                       value := sys.cpu_percent, threshold := none }]
        else alerts
      if 90 < sys.memory_percent then
        alerts ++ [{ atype := "high_memory", severity := "warning",
                     value := sys.memory_percent, threshold := none }]
      else alerts

/-! ## Throughput tester (throughput_tester.py, start_sustainable_rate_test) -/

/-- Loss tolerance of the sustainable-rate binary search (5 percent). -/
def lossTolerance : ℚ := 1/20

/-- Translation of the binary-search loop of start_sustainable_rate_test:
while the interval is wider than 10, probe the midpoint; accept (move the
lower bound up and record the probe) when the measured loss rate is at most
the tolerance, otherwise move the upper bound down.  The measured loss rate
of the link is the external input f. -/
def sustainableSearch (f : ℕ → ℚ) (lo hi sus : ℕ) : ℕ :=
  if h : 10 < hi - lo then
    if f ((lo + hi) / 2) ≤ lossTolerance then
      sustainableSearch f ((lo + hi) / 2) hi ((lo + hi) / 2)
    else
      sustainableSearch f lo ((lo + hi) / 2) sus
  else sus
termination_by hi - lo
decreasing_by
  · omega
  · omega

/-- Translation of start_sustainable_rate_test: binary search over
[1, 20000] starting from a zero sustainable rate. -/
def startSustainableRateTest (f : ℕ → ℚ) : ℕ :=
  sustainableSearch f 1 20000 0

/-- Largest rate in the search domain whose loss rate stays within the
tolerance (0 when even the smallest rates lose too much): the true
threshold the claim compares the search result against. -/
def crossoverThreshold (f : ℕ → ℚ) : ℕ :=
  Nat.findGreatest (fun r => f r ≤ lossTolerance) 20000

/-! ## Stress orchestrator (stress_orchestrator.py) -/

/-- ScenarioPhase dataclass (parameters restricted to the numeric entries
the modelled code paths read). -/
structure ScenarioPhase where
  name : String
  duration : ℚ
  parameters : List (String × ℚ)
deriving Repr, DecidableEq

/-- TestScenario dataclass. -/
structure TestScenario where
  name : String
  phases : List ScenarioPhase
  total_duration : ℚ
  requires_cpu_stress : Bool
  requires_memory_stress : Bool
  requires_message_stress : Bool
  requires_throughput_stress : Bool
deriving Repr, DecidableEq

/-- Python dict.get with a default, over the modelled parameter map. -/
def paramGet : List (String × ℚ) → String → ℚ → ℚ
  | [], _, dflt => dflt
  | kv :: rest, key, dflt => if kv.1 = key then kv.2 else paramGet rest key dflt

/-- Numeric fields of the parameter update _start_message_stress publishes
to the message stress publisher. -/
structure PubMessageParams where
  publish_rate : ℚ
  payload_size : ℚ
deriving Repr, DecidableEq

/-- Outcomes of the start calls on the external load generators (the cpu
and memory worker modules and the throughput tester command); message
stress always succeeds in the source because it only publishes a command. -/
structure GenEnv where
  cpuOk : Bool
  memOk : Bool
  thrOk : Bool
deriving Repr, DecidableEq

/-- Python exceptions the modelled orchestrator code paths can raise. -/
inductive PyError where
  | attributeError
  | indexError
  | typeError
deriving Repr, DecidableEq

/-- Orchestrator state: the StressOrchestrator fields the modelled methods
read or write, plus logs of the published scenario statuses, message
parameter updates and progress records. -/
structure OrchState where
  current_scenario : Option TestScenario
  current_phase_index : ℕ
  scenario_start_time : Option ℚ
  phase_start_time : Option ℚ
  is_running : Bool
  shutdown_requested : Bool
  active_processes : List String
  baseline_completed : Bool
  pending_scenario : Option String
  status_log : List String
  message_cmd_log : List PubMessageParams
  progress_count : ℕ
deriving Repr, DecidableEq

def initialOrchState : OrchState :=
  { current_scenario := none, current_phase_index := 0,
    scenario_start_time := none, phase_start_time := none,
    is_running := false, shutdown_requested := false,
    active_processes := [], baseline_completed := false,
    pending_scenario := none, status_log := [],
    message_cmd_log := [], progress_count := 0 }

/-- Translation of _publish_phase_progress: publishes one progress record
unless not running or no scenario is set. -/
def publishPhaseProgress (s : OrchState) : OrchState :=
  if s.is_running && s.current_scenario.isSome then
    { s with progress_count := s.progress_count + 1 }
  else s

/-- Translation of _start_current_phase: fails when no scenario is set or
the phase index is out of range; otherwise records the phase start time,
then either requests a pure baseline measurement (baseline_only parameter)
or starts every generator the scenario requires (cpu and memory objects are
entered into the active-process table, message stress publishes a parameter
update and always succeeds, the external start outcomes come from env); a
success publishes one progress record. -/
def startCurrentPhase (env : GenEnv) (t : ℚ) (s : OrchState) : OrchState × Bool :=
  match s.current_scenario with
  | none => (s, false)
  | some sc =>
    match sc.phases.get? s.current_phase_index with
    | none => (s, false)
    | some ph =>
      let s := { s with phase_start_time := some t }
      if paramGet ph.parameters "baseline_only" 0 ≠ 0 then
        (publishPhaseProgress s, true)
      else
        let s := if sc.requires_cpu_stress then
            { s with active_processes := s.active_processes ++ ["cpu_stress"] } else s
        let s := if sc.requires_memory_stress then
            { s with active_processes := s.active_processes ++ ["memory_stress"] } else s
        let s := if sc.requires_message_stress then
            { s with message_cmd_log := s.message_cmd_log ++
                [{ publish_rate := paramGet ph.parameters "message_rate" 10,
                   payload_size := paramGet ph.parameters "payload_size" 1024 }] }
          else s
        let ok := (!sc.requires_cpu_stress || env.cpuOk)
               && (!sc.requires_memory_stress || env.memOk)
               && (!sc.requires_throughput_stress || env.thrOk)
        (if ok then publishPhaseProgress s else s, ok)

/-- Translation of _start_scenario_internal: install the scenario at phase
0 with the start timestamps, start the first phase, publish a started
status on success and fall back to idle on failure. -/
def startScenarioInternal (env : GenEnv) (t : ℚ) (s : OrchState)
    (sc : TestScenario) : OrchState × Bool :=
  let s := { s with current_scenario := some sc, current_phase_index := 0,
                    scenario_start_time := some t, is_running := true,
                    shutdown_requested := false }
  let r := startCurrentPhase env t s
  if r.2 then
    ({ r.1 with status_log := r.1.status_log ++ ["started"] }, true)
  else
    ({ r.1 with is_running := false, current_scenario := none }, false)

/-- Translation of _cleanup_all_processes: stop every active generator and
clear the table. -/
def cleanupAllProcesses (s : OrchState) : OrchState :=
  { s with active_processes := [] }

/-- Translation of stop_scenario: a no-op returning False when idle;
otherwise request shutdown, clean up every process, reset to idle and
publish a stopped status. -/
def stopScenario (s : OrchState) : OrchState × Bool :=
  if !s.is_running then (s, false)
  else
    let s := { s with shutdown_requested := true }
    let s := cleanupAllProcesses s
    let s := { s with is_running := false, current_scenario := none,
                      current_phase_index := 0 }
    ({ s with status_log := s.status_log ++ ["stopped"] }, true)

/-- Translation of _complete_scenario: when a scenario is set its elapsed
time is computed from scenario_start_time (a TypeError if that is None),
then stop_scenario runs. -/
def completeScenario (s : OrchState) : OrchState × Option PyError :=
  match s.current_scenario with
  | some _ =>
    match s.scenario_start_time with
    | none => (s, some PyError.typeError)
    | some _ => ((stopScenario s).1, none)
  | none => ((stopScenario s).1, none)

/-- Translation of _transition_to_next_phase: advance the phase index;
complete the scenario when past the last phase (an AttributeError if no
scenario is set); otherwise stop the phase-scoped generators in place and
start the next phase, stopping the whole scenario if that fails. -/
def transitionToNextPhase (env : GenEnv) (t : ℚ) (s : OrchState) :
    OrchState × Option PyError :=
  let s := { s with current_phase_index := s.current_phase_index + 1 }
  match s.current_scenario with
  | none => (s, some PyError.attributeError)
  | some sc =>
    if sc.phases.length ≤ s.current_phase_index then completeScenario s
    else
      let r := startCurrentPhase env t s
      if r.2 then (r.1, none)
      else ((stopScenario r.1).1, none)

/-- Translation of _monitor_scenario_progress: return immediately when not
running or shutting down; when a phase start time is set and the phase
duration has elapsed, transition to the next phase (reading the current
phase raises if the scenario or index is invalid); when the scenario start
time is set and the total duration has elapsed, complete the scenario
(current_scenario may have become None by then, an AttributeError); finally
publish a progress record.  The returned state holds every mutation applied
before any raised error. -/
def monitorPhaseCheck (env : GenEnv) (t : ℚ) (s : OrchState) :
    OrchState × Option PyError :=
  match s.phase_start_time with
  | none => (s, none)
  | some pst =>
    match s.current_scenario with
    | none => (s, some PyError.attributeError)
    | some sc =>
      match sc.phases.get? s.current_phase_index with
      | none => (s, some PyError.indexError)
      | some ph =>
        if ph.duration ≤ t - pst then transitionToNextPhase env t s else (s, none)

/-- Redundant total-duration completion check of _monitor_scenario_progress
(the second paragraph of the tick). -/
def monitorScenarioCheck (t : ℚ) (s : OrchState) : OrchState × Option PyError :=
  match s.scenario_start_time with
  | none => (s, none)
  | some sst =>
    match s.current_scenario with
    | none => (s, some PyError.attributeError)
    | some sc =>
      if sc.total_duration ≤ t - sst then completeScenario s else (s, none)

/-- Translation of the body of _monitor_scenario_progress: the guard, then
the phase-duration check, then the redundant total-duration check, then one
progress record; an error raised in an earlier step skips the rest while
keeping its state mutations. -/
def monitorScenarioProgress (env : GenEnv) (t : ℚ) (s : OrchState) :
    OrchState × Option PyError :=
  if !s.is_running || s.shutdown_requested then (s, none)
  else
    match monitorPhaseCheck env t s with
    | (s1, some e) => (s1, some e)
    | (s1, none) =>
      match monitorScenarioCheck t s1 with
      | (s2, some e) => (s2, some e)
      | (s2, none) => (publishPhaseProgress s2, none)

/-- Lookup of a scenario by name in the catalogue dict. -/
def lookupScenario : List (String × TestScenario) → String → Option TestScenario
  | [], _ => none
  | kv :: rest, name => if kv.1 = name then some kv.2 else lookupScenario rest name

/-- Translation of start_scenario: reject when already running or the name
is unknown; when the baseline-before-stress policy is on and no baseline
has completed yet, start the (simulated, synchronously completing) baseline
measurement and park the scenario as pending; otherwise start it now. -/
def startScenario (scenarios : List (String × TestScenario)) (autoBaseline : Bool)
    (env : GenEnv) (t : ℚ) (s : OrchState) (name : String) : OrchState × Bool :=
  if s.is_running then (s, false)
  else
    match lookupScenario scenarios name with
    | none => (s, false)
    | some sc =>
      if autoBaseline && !s.baseline_completed then
        ({ s with baseline_completed := true, pending_scenario := some name }, true)
      else
        startScenarioInternal env t s sc

/-- Applying a list of monitoring ticks in order, keeping the state
mutations of every tick (a raised error ends that tick early but keeps the
mutations already applied). -/
def runMonitorTicks (env : GenEnv) (ts : List ℚ) (s : OrchState) : OrchState :=
  ts.foldl (fun st t => (monitorScenarioProgress env t st).1) s

/-- First phase of the two-phase scenario of claim C2. -/
def c2Phase0 : ScenarioPhase :=
  { name := "p0", duration := 10, parameters := [("message_rate", 10)] }

/-- Second phase of the two-phase scenario of claim C2. -/
def c2Phase1 : ScenarioPhase :=
  { name := "p1", duration := 20, parameters := [("message_rate", 100)] }

/-- The two-phase scenario of claim C2 (message stress only, as in the
catalogue scenarios that carry a message_rate parameter). -/
def c2Scenario : TestScenario :=
  { name := "two_phase", phases := [c2Phase0, c2Phase1], total_duration := 30,
    requires_cpu_stress := false, requires_memory_stress := false,
    requires_message_stress := true, requires_throughput_stress := false }

def c2Catalogue : List (String × TestScenario) := [("two_phase", c2Scenario)]

/-- Environment in which every external generator start succeeds. -/
def fullEnv : GenEnv := { cpuOk := true, memOk := true, thrOk := true }

/-- Orchestrator state right after starting the claim-C2 scenario at wall
time 100 with the baseline-before-stress policy disabled. -/
def c2AfterStart : OrchState :=
  (startScenario c2Catalogue false fullEnv 100 initialOrchState "two_phase").1

/-- State after the monitoring ticks at wall times 105 and 110, ten time
units into the scenario. -/
def c2AtT10 : OrchState := runMonitorTicks fullEnv [105, 110] c2AfterStart

/-- State after the remaining ticks up to wall time 130, thirty time units
into the scenario. -/
def c2Final : OrchState := runMonitorTicks fullEnv [115, 120, 125, 130] c2AtT10

/-- Inductive orchestrator invariant: while a scenario is running, the
scenario is set, the phase index is in range and both start timestamps are
set. -/
def OrchInv (s : OrchState) : Prop :=
  s.is_running = true →
    ∃ sc, s.current_scenario = some sc
      ∧ s.current_phase_index < sc.phases.length
      ∧ s.scenario_start_time.isSome = true
      ∧ s.phase_start_time.isSome = true

/-- Collector state with no ingested stream metrics and empty histories. -/
def emptyCollectorState : CollectorState :=
  { current_metrics := [], system_history := [], aggregated_history := [] }

/-- A concrete system snapshot used by the concrete-tick statements. -/
def sampleSystemSnapshot : SystemSnapshot :=
  { timestamp := 100, cpu_percent := 5, memory_percent := 40,
    memory_available_mb := 8192, network_bytes_sent := 0,
    network_bytes_recv := 0, disk_io_read := 0, disk_io_write := 0,
    load_average := 1 }


/-- A concrete stream entry used by the concrete-tick statements. -/
def sampleStreamEntry : StreamEntry :=
  { hasMessageCount := true, message_count := 3, throughput_hz := 5,
    latency_stats := some { avg := 2, max := 4 }, loss_rate := 0 }

/-- A concrete collector state with one ingested stream entry. -/
def sampleCollectorState : CollectorState :=
  { current_metrics := [sampleStreamEntry], system_history := [],
    aggregated_history := [] }

/-! ## Theorems -/

/-- C5: Baseline quality classification.  The quality is excellent iff the
stability score is at least 0.9, the duration at least 3 times the minimum
(60 s) and the sample count at least 3 times the minimum (30); otherwise
good iff at least 0.8 / 1x / 1x; otherwise fair iff at least 0.6 and half
the minimum duration; otherwise poor.  A run with score 0.95, 1000 s and
200 samples is excellent; a run with score 0.5 is poor regardless of
duration and sample count. -/
theorem measurement_quality_ok (s d : ℚ) (n : ℕ) :
    (determineMeasurementQuality s d n = "excellent" ↔
        (9/10 ≤ s ∧ 180 ≤ d ∧ 90 ≤ n))
    ∧ (determineMeasurementQuality s d n = "good" ↔
        (¬(9/10 ≤ s ∧ 180 ≤ d ∧ 90 ≤ n) ∧ (8/10 ≤ s ∧ 60 ≤ d ∧ 30 ≤ n)))
    ∧ (determineMeasurementQuality s d n = "fair" ↔
        (¬(9/10 ≤ s ∧ 180 ≤ d ∧ 90 ≤ n) ∧ ¬(8/10 ≤ s ∧ 60 ≤ d ∧ 30 ≤ n)
          ∧ (6/10 ≤ s ∧ 30 ≤ d)))
    ∧ (determineMeasurementQuality s d n = "poor" ↔
        (¬(9/10 ≤ s ∧ 180 ≤ d ∧ 90 ≤ n) ∧ ¬(8/10 ≤ s ∧ 60 ≤ d ∧ 30 ≤ n)
          ∧ ¬(6/10 ≤ s ∧ 30 ≤ d)))
    ∧ determineMeasurementQuality (95/100) 1000 200 = "excellent"
    ∧ determineMeasurementQuality (1/2) d n = "poor" := by
  have hq : ∀ s2 d2 : ℚ, ∀ n2 : ℕ, determineMeasurementQuality s2 d2 n2 =
      (if 9/10 ≤ s2 ∧ 180 ≤ d2 ∧ 90 ≤ n2 then "excellent"
       else if 8/10 ≤ s2 ∧ 60 ≤ d2 ∧ 30 ≤ n2 then "good"
       else if 6/10 ≤ s2 ∧ 30 ≤ d2 then "fair" else "poor") := by
    intro s2 d2 n2
    unfold determineMeasurementQuality
    norm_num
  refine ⟨?_, ?_, ?_, ?_, by rw [hq]; norm_num, ?_⟩
  · rw [hq]; split_ifs with h1 h2 h3
    · exact iff_of_true rfl h1
    · exact iff_of_false (by decide) h1
    · exact iff_of_false (by decide) h1
    · exact iff_of_false (by decide) h1
  · rw [hq]; split_ifs with h1 h2 h3
    · exact iff_of_false (by decide) (fun hc => hc.1 h1)
    · exact iff_of_true rfl ⟨h1, h2⟩
    · exact iff_of_false (by decide) (fun hc => h2 hc.2)
    · exact iff_of_false (by decide) (fun hc => h2 hc.2)
  · rw [hq]; split_ifs with h1 h2 h3
    · exact iff_of_false (by decide) (fun hc => hc.1 h1)
    · exact iff_of_false (by decide) (fun hc => hc.2.1 h2)
    · exact iff_of_true rfl ⟨h1, h2, h3⟩
    · exact iff_of_false (by decide) (fun hc => h3 hc.2.2)
  · rw [hq]; split_ifs with h1 h2 h3
    · exact iff_of_false (by decide) (fun hc => hc.1 h1)
    · exact iff_of_false (by decide) (fun hc => hc.2.1 h2)
    · exact iff_of_false (by decide) (fun hc => hc.2.2 h3)
    · exact iff_of_true rfl ⟨h1, h2, h3⟩
  · rw [hq]
    have hs : ¬ (9/10 : ℚ) ≤ 1/2 := by norm_num
    have hs2 : ¬ (8/10 : ℚ) ≤ 1/2 := by norm_num
    have hs3 : ¬ (6/10 : ℚ) ≤ 1/2 := by norm_num
    rw [if_neg (fun hc => hs hc.1), if_neg (fun hc => hs2 hc.1),
        if_neg (fun hc => hs3 hc.1)]

/-- C8: Stop idempotence for the orchestrator and the memory stress
tester.  From any state, the first stop call returns success exactly when
something was running and leaves an idle state; an immediately following
second call is a no-op returning false that leaves the state unchanged.
Both stop routines are total functions, so neither call can throw. -/
theorem stop_idempotence_ok (so : OrchState) (sm : MemoryStressState) :
    ((stopScenario so).2 = so.is_running
      ∧ (stopScenario so).1.is_running = false
      ∧ (stopScenario (stopScenario so).1).2 = false
      ∧ (stopScenario (stopScenario so).1).1 = (stopScenario so).1)
    ∧ ((stopStressTest sm).2 = sm.is_running
      ∧ (stopStressTest sm).1.is_running = false
      ∧ (stopStressTest (stopStressTest sm).1).2 = false
      ∧ (stopStressTest (stopStressTest sm).1).1 = (stopStressTest sm).1) := by
  constructor
  · cases h : so.is_running <;>
      simp [stopScenario, cleanupAllProcesses, h]
  · cases h : sm.is_running <;>
      simp [stopStressTest, h]

/-- C9: Memory-allocation clamping.  For any positive requested target
above the safety margin (80 percent of available memory), the main entry
point of memory_stress.py does not fail: it surfaces exactly one warning,
clamps the target to the safe maximum and starts the test successfully
with the clamped target; start_stress_test itself also succeeds from the
idle state and hands the clamped target to the worker. -/
theorem memory_clamp_ok (availableMb : ℚ) (targetArg : ℤ)
    (hpos : 0 < targetArg) (hover : maxSafeMb availableMb < targetArg) :
    memoryStressMain availableMb targetArg
        = (true, maxSafeMb availableMb, ["Warning: target exceeds safe limit"])
      ∧ (startStressTest availableMb initialMemoryStressState targetArg).2.1 = true
      ∧ (startStressTest availableMb initialMemoryStressState targetArg).2.2
          = maxSafeMb availableMb := by
  have hnot : ¬ targetArg ≤ 0 := not_le.mpr hpos
  refine ⟨?_, ?_, ?_⟩
  · simp only [memoryStressMain, startStressTest, initialMemoryStressState,
      if_neg hnot, if_pos hover]
    simp [lt_irrefl]
  · simp [startStressTest, initialMemoryStressState]
  · simp [startStressTest, initialMemoryStressState, if_pos hover]

theorem memory_clamp_ok_witness :
    ((0 : ℤ) < 1 ∧ maxSafeMb 0 < 1)
    ∧ (memoryStressMain 0 1
          = (true, maxSafeMb 0, ["Warning: target exceeds safe limit"])
        ∧ (startStressTest 0 initialMemoryStressState 1).2.1 = true
        ∧ (startStressTest 0 initialMemoryStressState 1).2.2 = maxSafeMb 0) :=
  ⟨⟨by decide, by simp [maxSafeMb]⟩,
    memory_clamp_ok 0 1 (by decide) (by simp [maxSafeMb])⟩

/-- State of the claim-C2 run right after the start call. -/
theorem c2_start_eq :
    startScenario c2Catalogue false fullEnv 100 initialOrchState "two_phase"
      = ({ current_scenario := some c2Scenario, current_phase_index := 0,
           scenario_start_time := some 100, phase_start_time := some 100,
           is_running := true, shutdown_requested := false, active_processes := [],
           baseline_completed := false, pending_scenario := none,
           status_log := ["started"],
           message_cmd_log := [{ publish_rate := 10, payload_size := 1024 }],
           progress_count := 1 }, true) := by
  norm_num +decide [startScenario, lookupScenario, c2Catalogue, startScenarioInternal,
    startCurrentPhase, publishPhaseProgress, paramGet, c2Scenario, c2Phase0,
    c2Phase1, fullEnv, initialOrchState, List.get?]

/-- A monitoring tick of the claim-C2 run while phase 0 is still within its
duration only publishes a progress record. -/
theorem c2_tick_phase0 (t : ℚ) (p : ℕ) (ht1 : t - 100 < 10) (ht2 : t - 100 < 30) :
    monitorScenarioProgress fullEnv t
      { current_scenario := some c2Scenario, current_phase_index := 0,
        scenario_start_time := some 100, phase_start_time := some 100,
        is_running := true, shutdown_requested := false, active_processes := [],
        baseline_completed := false, pending_scenario := none,
        status_log := ["started"],
        message_cmd_log := [{ publish_rate := 10, payload_size := 1024 }],
        progress_count := p }
      = ({ current_scenario := some c2Scenario, current_phase_index := 0,
           scenario_start_time := some 100, phase_start_time := some 100,
           is_running := true, shutdown_requested := false, active_processes := [],
           baseline_completed := false, pending_scenario := none,
           status_log := ["started"],
           message_cmd_log := [{ publish_rate := 10, payload_size := 1024 }],
           progress_count := p + 1 }, none) := by
  have h1 : ¬ ((10 : ℚ) ≤ t - 100) := not_le.mpr ht1
  have h2 : ¬ ((30 : ℚ) ≤ t - 100) := not_le.mpr ht2
  simp +decide [monitorScenarioProgress, monitorPhaseCheck, monitorScenarioCheck,
    publishPhaseProgress, c2Scenario,
    c2Phase0, c2Phase1, fullEnv, List.get?, h1, h2]

/-- The monitoring tick of the claim-C2 run at wall time 110 (ten time
units in) transitions to phase 1 and publishes the phase-1 message
parameters. -/
theorem c2_tick_t110 (p : ℕ) :
    monitorScenarioProgress fullEnv 110
      { current_scenario := some c2Scenario, current_phase_index := 0,
        scenario_start_time := some 100, phase_start_time := some 100,
        is_running := true, shutdown_requested := false, active_processes := [],
        baseline_completed := false, pending_scenario := none,
        status_log := ["started"],
        message_cmd_log := [{ publish_rate := 10, payload_size := 1024 }],
        progress_count := p }
      = ({ current_scenario := some c2Scenario, current_phase_index := 1,
           scenario_start_time := some 100, phase_start_time := some 110,
           is_running := true, shutdown_requested := false, active_processes := [],
           baseline_completed := false, pending_scenario := none,
           status_log := ["started"],
           message_cmd_log := [{ publish_rate := 10, payload_size := 1024 },
             { publish_rate := 100, payload_size := 1024 }],
           progress_count := p + 2 }, none) := by
  norm_num +decide [monitorScenarioProgress, monitorPhaseCheck, monitorScenarioCheck,
    transitionToNextPhase, startCurrentPhase, publishPhaseProgress, paramGet,
    c2Scenario, c2Phase0, c2Phase1, fullEnv, List.get?]

/-- A monitoring tick of the claim-C2 run while phase 1 is still within its
duration only publishes a progress record. -/
theorem c2_tick_phase1 (t : ℚ) (p : ℕ) (ht1 : t - 110 < 20) (ht2 : t - 100 < 30) :
    monitorScenarioProgress fullEnv t
      { current_scenario := some c2Scenario, current_phase_index := 1,
        scenario_start_time := some 100, phase_start_time := some 110,
        is_running := true, shutdown_requested := false, active_processes := [],
        baseline_completed := false, pending_scenario := none,
        status_log := ["started"],
        message_cmd_log := [{ publish_rate := 10, payload_size := 1024 },
          { publish_rate := 100, payload_size := 1024 }],
        progress_count := p }
      = ({ current_scenario := some c2Scenario, current_phase_index := 1,
           scenario_start_time := some 100, phase_start_time := some 110,
           is_running := true, shutdown_requested := false, active_processes := [],
           baseline_completed := false, pending_scenario := none,
           status_log := ["started"],
           message_cmd_log := [{ publish_rate := 10, payload_size := 1024 },
             { publish_rate := 100, payload_size := 1024 }],
           progress_count := p + 1 }, none) := by
  have h1 : ¬ ((20 : ℚ) ≤ t - 110) := not_le.mpr ht1
  have h2 : ¬ ((30 : ℚ) ≤ t - 100) := not_le.mpr ht2
  simp +decide [monitorScenarioProgress, monitorPhaseCheck, monitorScenarioCheck,
    publishPhaseProgress, c2Scenario,
    c2Phase0, c2Phase1, fullEnv, List.get?, h1, h2]

/-- The monitoring tick of the claim-C2 run at wall time 130 (thirty time
units in) completes the scenario: the orchestrator returns to idle and a
stopped status is published; the tick then raises an AttributeError when
the redundant total-duration check reads the cleared scenario. -/
theorem c2_tick_t130 (p : ℕ) :
    monitorScenarioProgress fullEnv 130
      { current_scenario := some c2Scenario, current_phase_index := 1,
        scenario_start_time := some 100, phase_start_time := some 110,
        is_running := true, shutdown_requested := false, active_processes := [],
        baseline_completed := false, pending_scenario := none,
        status_log := ["started"],
        message_cmd_log := [{ publish_rate := 10, payload_size := 1024 },
          { publish_rate := 100, payload_size := 1024 }],
        progress_count := p }
      = ({ current_scenario := none, current_phase_index := 0,
           scenario_start_time := some 100, phase_start_time := some 110,
           is_running := false, shutdown_requested := true, active_processes := [],
           baseline_completed := false, pending_scenario := none,
           status_log := ["started", "stopped"],
           message_cmd_log := [{ publish_rate := 10, payload_size := 1024 },
             { publish_rate := 100, payload_size := 1024 }],
           progress_count := p }, some PyError.attributeError) := by
  norm_num +decide [monitorScenarioProgress, monitorPhaseCheck, monitorScenarioCheck,
    transitionToNextPhase, completeScenario, stopScenario, cleanupAllProcesses,
    startCurrentPhase, publishPhaseProgress, paramGet, c2Scenario, c2Phase0,
    c2Phase1, fullEnv, List.get?]

/-- State of the claim-C2 run after the ticks at wall times 105 and 110. -/
theorem c2AtT10_eq :
    c2AtT10 =
      { current_scenario := some c2Scenario, current_phase_index := 1,
        scenario_start_time := some 100, phase_start_time := some 110,
        is_running := true, shutdown_requested := false, active_processes := [],
        baseline_completed := false, pending_scenario := none,
        status_log := ["started"],
        message_cmd_log := [{ publish_rate := 10, payload_size := 1024 },
          { publish_rate := 100, payload_size := 1024 }],
        progress_count := 4 } := by
  have h0 := c2_start_eq
  have h1 := c2_tick_phase0 105 1 (by norm_num) (by norm_num)
  have h2 := c2_tick_t110 2
  rw [c2AtT10, c2AfterStart, h0]
  simp only [runMonitorTicks, List.foldl, h1, h2]

/-- Final state of the claim-C2 run after the ticks up to wall time 130. -/
theorem c2Final_eq :
    c2Final =
      { current_scenario := none, current_phase_index := 0,
        scenario_start_time := some 100, phase_start_time := some 110,
        is_running := false, shutdown_requested := true, active_processes := [],
        baseline_completed := false, pending_scenario := none,
        status_log := ["started", "stopped"],
        message_cmd_log := [{ publish_rate := 10, payload_size := 1024 },
          { publish_rate := 100, payload_size := 1024 }],
        progress_count := 7 } := by
  have h1 := c2_tick_phase1 115 4 (by norm_num) (by norm_num)
  have h2 := c2_tick_phase1 120 5 (by norm_num) (by norm_num)
  have h3 := c2_tick_phase1 125 6 (by norm_num) (by norm_num)
  have h4 := c2_tick_t130 7
  rw [c2Final, c2AtT10_eq]
  simp only [runMonitorTicks, List.foldl, h1, h2, h3, h4]

/-- C2 counterexample: in the concrete two-phase run (durations 10 and 20,
baseline disabled) the orchestrator is back to idle after 30 time units,
but the number of published status records with status completed is 0, not
1 as the claim states: completion is routed through stop_scenario, which
publishes the status stopped instead. -/
theorem scenario_completed_status_counterexample :
    c2Final.is_running = false
    ∧ c2Final.status_log.count "completed" = 0
    ∧ (0 : ℕ) ≠ 1 := by
  rw [c2Final_eq]
  refine ⟨rfl, by decide, by decide⟩

/-- C2 (amended): starting the two-phase scenario (durations 10 and 20,
baseline-before-stress disabled) immediately enters phase index 0 and
publishes the phase-0 message parameters; after 10 time units of
monitoring ticks it is in phase index 1 with the phase-1 parameters
published; after 30 time units the orchestrator is idle (is_running false,
current_scenario cleared) and a status record with status stopped — not
completed, which the code never publishes — has been published exactly
once. -/
theorem two_phase_scenario_run_ok :
    (startScenario c2Catalogue false fullEnv 100 initialOrchState "two_phase").2 = true
    ∧ c2AfterStart.is_running = true
    ∧ c2AfterStart.current_phase_index = 0
    ∧ c2AfterStart.message_cmd_log = [{ publish_rate := 10, payload_size := 1024 }]
    ∧ c2AtT10.is_running = true
    ∧ c2AtT10.current_phase_index = 1
    ∧ c2AtT10.message_cmd_log = [{ publish_rate := 10, payload_size := 1024 },
        { publish_rate := 100, payload_size := 1024 }]
    ∧ c2Final.is_running = false
    ∧ c2Final.current_scenario = none
    ∧ c2Final.status_log = ["started", "stopped"]
    ∧ c2Final.status_log.count "stopped" = 1 := by
  rw [c2AfterStart, c2_start_eq, c2AtT10_eq, c2Final_eq]
  refine ⟨rfl, rfl, rfl, rfl, rfl, rfl, rfl, rfl, rfl, rfl, by decide⟩

/-- C6: Alert firing uses strict inequality.  On any aggregated snapshot
the four rules fire independently: exactly one high_latency warning iff the
average latency strictly exceeds the threshold, one high_loss_rate error
iff the loss rate strictly exceeds its threshold, and one high_cpu or
high_memory warning iff the attached system snapshot has cpu or memory
strictly above 90; every high_latency alert is a warning carrying the
snapshot value and threshold.  Concretely, with a 100 ms threshold a
snapshot at 100.01 ms fires exactly the single high_latency warning and a
snapshot at exactly 100 ms fires nothing. -/
theorem performance_alerts_strict_ok (latT lossT : ℚ) (m : AggregatedMetrics) :
    ((checkPerformanceAlerts latT lossT m).countP (fun a => a.atype == "high_latency")
        = if latT < m.average_latency_ms then 1 else 0)
    ∧ ((checkPerformanceAlerts latT lossT m).countP (fun a => a.atype == "high_loss_rate")
        = if lossT < m.overall_loss_rate then 1 else 0)
    ∧ ((checkPerformanceAlerts latT lossT m).countP (fun a => a.atype == "high_cpu")
        = match m.system_metrics with
          | some sys => if 90 < sys.cpu_percent then 1 else 0
          | none => 0)
    ∧ ((checkPerformanceAlerts latT lossT m).countP (fun a => a.atype == "high_memory")
        = match m.system_metrics with
          | some sys => if 90 < sys.memory_percent then 1 else 0
          | none => 0)
    ∧ (∀ a ∈ checkPerformanceAlerts latT lossT m, a.atype = "high_latency" →
          a.severity = "warning" ∧ a.value = m.average_latency_ms
            ∧ a.threshold = some latT)
    ∧ checkPerformanceAlerts 100 (1/20)
        { timestamp := 0, total_messages := 0, total_throughput_hz := 0,
          average_latency_ms := 100 + 1/100, max_latency_ms := 0,
          overall_loss_rate := 0, active_topics := 0, system_metrics := none }
        = [{ atype := "high_latency", severity := "warning",
             value := 100 + 1/100, threshold := some 100 }]
    ∧ checkPerformanceAlerts 100 (1/20)
        { timestamp := 0, total_messages := 0, total_throughput_hz := 0,
          average_latency_ms := 100, max_latency_ms := 0,
          overall_loss_rate := 0, active_topics := 0, system_metrics := none }
        = [] := by
  refine ⟨?_, ?_, ?_, ?_, ?_, ?_, ?_⟩
  · unfold checkPerformanceAlerts
    cases m.system_metrics <;> split_ifs <;> simp_all +decide <;>
      (try (split_ifs <;> simp_all +decide))
  · unfold checkPerformanceAlerts
    cases m.system_metrics <;> split_ifs <;> simp_all +decide <;>
      (try (split_ifs <;> simp_all +decide))
  · unfold checkPerformanceAlerts
    cases m.system_metrics <;> split_ifs <;> simp_all +decide <;>
      (try (split_ifs <;> simp_all +decide))
  · unfold checkPerformanceAlerts
    cases m.system_metrics <;> split_ifs <;> simp_all +decide <;>
      (try (split_ifs <;> simp_all +decide))
  · unfold checkPerformanceAlerts
    cases m.system_metrics <;> split_ifs <;> simp_all +decide <;>
      (try (split_ifs <;> simp_all +decide))
  · norm_num [checkPerformanceAlerts]
  · norm_num [checkPerformanceAlerts]

/-- One tracking step never decreases last_sequence. -/
theorem trackSequenceNumber_last_mono (m : TopicSeqMetrics) (seq : ℤ) :
    m.last_sequence ≤ (trackSequenceNumber m seq).last_sequence := by
  dsimp only [trackSequenceNumber]
  split_ifs <;> exact le_max_left _ _

/-- Folding the tracker over any further observations never decreases
last_sequence. -/
theorem foldl_track_last_mono (l : List ℤ) (m : TopicSeqMetrics) :
    m.last_sequence ≤ (l.foldl trackSequenceNumber m).last_sequence := by
  induction l generalizing m with
  | nil => simp
  | cons a t ih =>
      exact le_trans (trackSequenceNumber_last_mono m a)
        (by simpa using ih (trackSequenceNumber m a))

/-- Once the code tracker holds a non-negative last_sequence agreeing with
the spec tracker and equal counters, one observation keeps them in exact
correspondence. -/
theorem track_spec_step (m : TopicSeqMetrics) (st : SpecSeqState) (seq : ℤ)
    (hlast : st.last = some m.last_sequence) (hnn : 0 ≤ m.last_sequence)
    (hlost : st.lost = m.lost_messages) (hdup : st.dup = m.duplicate_messages) :
    (specObserve st seq).last = some (trackSequenceNumber m seq).last_sequence
    ∧ 0 ≤ (trackSequenceNumber m seq).last_sequence
    ∧ (specObserve st seq).lost = (trackSequenceNumber m seq).lost_messages
    ∧ (specObserve st seq).dup = (trackSequenceNumber m seq).duplicate_messages := by
  dsimp only [trackSequenceNumber, specObserve]
  rw [hlast]
  rcases lt_trichotomy (m.last_sequence + 1) seq with hgt | heq | hlt
  · have hmax : max m.last_sequence seq = seq := max_eq_right (by omega)
    simp only [if_pos hnn, if_pos hgt, if_neg (by omega : ¬ seq < m.last_sequence + 1),
      hmax]
    refine ⟨?_, ?_, ?_, ?_⟩ <;> first | trivial | omega
  · have hmax : max m.last_sequence seq = seq := max_eq_right (by omega)
    simp only [if_pos hnn, if_neg (by omega : ¬ m.last_sequence + 1 < seq),
      if_neg (by omega : ¬ seq < m.last_sequence + 1),
      if_neg (by omega : ¬ seq ≤ m.last_sequence), hmax]
    refine ⟨?_, ?_, ?_, ?_⟩ <;> first | trivial | omega
  · have hmax : max m.last_sequence seq = m.last_sequence := max_eq_left (by omega)
    simp only [if_pos hnn, if_neg (by omega : ¬ m.last_sequence + 1 < seq),
      if_pos (by omega : seq < m.last_sequence + 1),
      if_pos (by omega : seq ≤ m.last_sequence), hmax]
    refine ⟨?_, ?_, ?_, ?_⟩ <;> first | trivial | omega

/-- The exact correspondence of track_spec_step is preserved by folding any
list of further observations. -/
theorem track_spec_fold (l : List ℤ) (m : TopicSeqMetrics) (st : SpecSeqState)
    (hlast : st.last = some m.last_sequence) (hnn : 0 ≤ m.last_sequence)
    (hlost : st.lost = m.lost_messages) (hdup : st.dup = m.duplicate_messages) :
    (l.foldl specObserve st).last = some (l.foldl trackSequenceNumber m).last_sequence
    ∧ 0 ≤ (l.foldl trackSequenceNumber m).last_sequence
    ∧ (l.foldl specObserve st).lost = (l.foldl trackSequenceNumber m).lost_messages
    ∧ (l.foldl specObserve st).dup
        = (l.foldl trackSequenceNumber m).duplicate_messages := by
  induction l generalizing m st with
  | nil => exact ⟨hlast, hnn, hlost, hdup⟩
  | cons a t ih =>
      obtain ⟨h1, h2, h3, h4⟩ := track_spec_step m st a hlast hnn hlost hdup
      simpa using ih (trackSequenceNumber m a) (specObserve st a) h1 h2 h3 h4

/-- C1 counterexample: feeding the single sequence number -2 to a fresh
tracker leaves last_sequence at the -1 sentinel instead of initialising it
to the observed number, because _track_sequence_number updates
last_sequence with max(last_sequence, seq) against the -1 initial value. -/
theorem seq_first_observation_negative_counterexample :
    (runSequenceTracker [(-2 : ℤ)]).last_sequence = -1
    ∧ ((-1 : ℤ) ≠ -2) := by decide

/-- C1 (amended): provided the first observed sequence number is
non-negative (the tracker uses -1 as its uninitialised sentinel), the code
tracker agrees exactly with the spec model of SequenceTracker.observe: the
first observation initialises last_sequence with zero deltas, gaps above
last_sequence + 1 are added to the lost count, non-increasing observations
each add one duplicate and leave last_sequence unchanged, and last_sequence
never decreases as further observations arrive.  All integers are accepted
without error (the tracker is a total function). -/
theorem seq_tracking_amended_ok (l tail : List ℤ) (hfirst : 0 ≤ l.headD 0) :
    ((runSequenceTracker l).last_sequence = ((runSpecTracker l).last).getD (-1)
      ∧ (runSequenceTracker l).lost_messages = (runSpecTracker l).lost
      ∧ (runSequenceTracker l).duplicate_messages = (runSpecTracker l).dup)
    ∧ (runSequenceTracker l).last_sequence
        ≤ (runSequenceTracker (l ++ tail)).last_sequence := by
  constructor
  · cases l with
    | nil => simp [runSequenceTracker, runSpecTracker, initialTopicSeqMetrics]
    | cons a t =>
        have ha : (0 : ℤ) ≤ a := by simpa using hfirst
        have h0 : trackSequenceNumber initialTopicSeqMetrics a
            = { last_sequence := a, lost_messages := 0, duplicate_messages := 0 } := by
          dsimp only [trackSequenceNumber, initialTopicSeqMetrics]
          rw [if_neg (by omega : ¬ (0 : ℤ) ≤ -1)]
          rw [max_eq_right (by omega : (-1 : ℤ) ≤ a)]
        have hs0 : specObserve { last := none, lost := 0, dup := 0 } a
            = { last := some a, lost := 0, dup := 0 } := rfl
        obtain ⟨h1, h2, h3, h4⟩ := track_spec_fold t
          { last_sequence := a, lost_messages := 0, duplicate_messages := 0 }
          { last := some a, lost := 0, dup := 0 } rfl ha rfl rfl
        unfold runSequenceTracker runSpecTracker
        simp only [List.foldl_cons, h0, hs0]
        exact ⟨by rw [h1]; rfl, h3.symm, h4.symm⟩
  · unfold runSequenceTracker
    rw [List.foldl_append]
    exact foldl_track_last_mono tail _

theorem seq_tracking_amended_ok_witness :
    ((0 : ℤ) ≤ ([0, 5, 3, 6] : List ℤ).headD 0)
    ∧ (((runSequenceTracker [0, 5, 3, 6]).last_sequence
          = ((runSpecTracker [0, 5, 3, 6]).last).getD (-1)
        ∧ (runSequenceTracker [0, 5, 3, 6]).lost_messages
          = (runSpecTracker [0, 5, 3, 6]).lost
        ∧ (runSequenceTracker [0, 5, 3, 6]).duplicate_messages
          = (runSpecTracker [0, 5, 3, 6]).dup)
      ∧ (runSequenceTracker [0, 5, 3, 6]).last_sequence
          ≤ (runSequenceTracker ([0, 5, 3, 6] ++ [2])).last_sequence) :=
  ⟨by decide, seq_tracking_amended_ok [0, 5, 3, 6] [2] (by decide)⟩

/-- Appending to a deque with positive maxlen drops only from the front. -/
theorem dequeAppend_eq_drop {α : Type} (maxlen : ℕ) (hml : 1 ≤ maxlen)
    (l : List α) (a : α) :
    dequeAppend maxlen l a = l.drop (l.length + 1 - maxlen) ++ [a] := by
  dsimp only [dequeAppend]
  split_ifs with h
  · simp only [List.length_append, List.length_singleton] at h ⊢
    rw [List.drop_append_of_le_length (by omega)]
  · simp only [List.length_append, List.length_singleton] at h
    have : l.length + 1 - maxlen = 0 := by omega
    rw [this, List.drop_zero]

/-- Pruning from the front keeps a final element whose timestamp is at or
past the cutoff. -/
theorem pruneByTime_concat_getLast {α : Type} (ts : α → ℚ) (cutoff : ℚ) (a : α)
    (ha : ¬ ts a < cutoff) (l : List α) :
    (pruneByTime ts cutoff (l ++ [a])).getLast? = some a := by
  induction l with
  | nil => simp [pruneByTime, ha]
  | cons b t ih =>
      rw [List.cons_append, pruneByTime]
      split_ifs with hb
      · exact ih
      · rw [← List.cons_append, List.getLast?_concat]

/-- C7 counterexample: a collection tick that runs while no per-stream
metrics have been ingested produces no aggregated snapshot at all (the
source returns None for an empty current_metrics dict) and leaves the
aggregated history empty, contradicting the claim that every tick produces
exactly one snapshot. -/
theorem collect_metrics_empty_counterexample :
    (collectMetrics 3600 3600 true 100 sampleSystemSnapshot emptyCollectorState).2 = none
    ∧ (collectMetrics 3600 3600 true 100 sampleSystemSnapshot
        emptyCollectorState).1.aggregated_history = []
    ∧ ((none : Option AggregatedMetrics) ≠
        some (AggregatedMetrics.mk 100 0 0 0 0 0 0 (some sampleSystemSnapshot))) := by
  refine ⟨?_, ?_, by simp⟩ <;>
    simp [collectMetrics, aggregateCurrentMetrics, emptyCollectorState,
      dequeAppend, pruneByTime]

/-- C7 (amended): every collection tick whose current per-stream metrics
map is non-empty produces exactly one aggregated snapshot, computed purely
by aggregateCurrentMetrics from the current per-stream metrics and the
system snapshot, carrying the tick timestamp; it is appended as the last
element of the bounded aggregated history and, being a value of a pure
function, is never mutated afterwards.  A tick with an empty map produces
none. -/
theorem collect_metrics_tick_amended_ok (retention : ℚ) (maxlen : ℕ)
    (sysMon : Bool) (t : ℚ) (sys : SystemSnapshot) (s : CollectorState)
    (hne : s.current_metrics ≠ []) (hret : 0 ≤ retention) (hml : 1 ≤ maxlen) :
    ∃ agg : AggregatedMetrics,
      aggregateCurrentMetrics t (if sysMon then some sys else none) s.current_metrics
        = some agg
      ∧ (collectMetrics retention maxlen sysMon t sys s).2 = some agg
      ∧ (collectMetrics retention maxlen sysMon t sys s).1.aggregated_history.getLast?
        = some agg
      ∧ agg.timestamp = t
      ∧ agg.system_metrics = (if sysMon then some sys else none) := by
  have hagg : ∀ sysOpt : Option SystemSnapshot,
      ∃ agg : AggregatedMetrics,
        aggregateCurrentMetrics t sysOpt s.current_metrics = some agg
        ∧ agg.timestamp = t ∧ agg.system_metrics = sysOpt := by
    intro sysOpt
    unfold aggregateCurrentMetrics
    rw [if_neg hne]
    exact ⟨_, rfl, rfl, rfl⟩
  obtain ⟨agg, heq, hts, hsys⟩ := hagg (if sysMon then some sys else none)
  have hlast : ∀ hist : List AggregatedMetrics,
      (pruneByTime (fun x => x.timestamp) (t - retention)
        (dequeAppend maxlen hist agg)).getLast? = some agg := by
    intro hist
    rw [dequeAppend_eq_drop maxlen hml hist agg]
    exact pruneByTime_concat_getLast _ _ _ (by rw [hts]; linarith) _
  refine ⟨agg, heq, ?_, ?_, hts, hsys⟩
  · dsimp only [collectMetrics]
    rw [heq]
  · dsimp only [collectMetrics]
    rw [heq]
    exact hlast _

theorem collect_metrics_tick_amended_ok_witness :
    (sampleCollectorState.current_metrics ≠ [] ∧ (0 : ℚ) ≤ 3600 ∧ 1 ≤ 3600)
    ∧ ∃ agg : AggregatedMetrics,
        aggregateCurrentMetrics 100 (if true then some sampleSystemSnapshot else none)
            sampleCollectorState.current_metrics = some agg
        ∧ (collectMetrics 3600 3600 true 100 sampleSystemSnapshot
            sampleCollectorState).2 = some agg
        ∧ (collectMetrics 3600 3600 true 100 sampleSystemSnapshot
            sampleCollectorState).1.aggregated_history.getLast? = some agg
        ∧ agg.timestamp = 100
        ∧ agg.system_metrics = (if true then some sampleSystemSnapshot else none) :=
  ⟨⟨by decide, by norm_num, by norm_num⟩,
    collect_metrics_tick_amended_ok 3600 3600 true 100 sampleSystemSnapshot
      sampleCollectorState (by decide) (by norm_num) (by norm_num)⟩

/-- When the loss rate already exceeds the tolerance at some rate, the
crossover threshold lies strictly below that rate. -/
theorem crossover_lt_of_exceeds (f : ℕ → ℚ) (hf : Monotone f) (hi : ℕ)
    (hpos : 1 ≤ hi) (hflt : lossTolerance < f hi) :
    crossoverThreshold f < hi := by
  by_contra hge
  push_neg at hge
  have hne : crossoverThreshold f ≠ 0 := by omega
  have hP : f (crossoverThreshold f) ≤ lossTolerance :=
    Nat.findGreatest_of_ne_zero rfl hne
  have hmono : f hi ≤ f (crossoverThreshold f) := hf hge
  linarith

/-- Invariant-carrying form of the sustainable-rate convergence: from any
search interval whose lower end is either the untouched 1 or a probed
sustainable rate, whose upper end is either the untouched 20000 or a probed
unsustainable rate, and with the recorded rate tied to the lower end, the
search lands within the resolution of the crossover threshold. -/
theorem sustainableSearch_inv (f : ℕ → ℚ) (hf : Monotone f) :
    ∀ fuel lo hi sus, hi - lo ≤ fuel → 1 ≤ lo → lo < hi → hi ≤ 20000 →
      (hi = 20000 ∨ lossTolerance < f hi) →
      ((sus = 0 ∧ lo = 1) ∨ (sus = lo ∧ f lo ≤ lossTolerance)) →
      crossoverThreshold f ≤ sustainableSearch f lo hi sus + 10
      ∧ sustainableSearch f lo hi sus ≤ crossoverThreshold f := by
  intro fuel
  induction fuel with
  | zero => intro lo hi sus h0 h1 h2 _ _ _; omega
  | succ n ih =>
      intro lo hi sus hfuel h1 h2 h3 hhi hsus
      rw [sustainableSearch]
      split_ifs with hwide hacc
      · exact ih ((lo + hi) / 2) hi ((lo + hi) / 2) (by omega) (by omega) (by omega)
          h3 hhi (Or.inr ⟨rfl, hacc⟩)
      · exact ih lo ((lo + hi) / 2) sus (by omega) h1 (by omega) (by omega)
          (Or.inr (not_le.mp hacc)) hsus
      · have hTle : crossoverThreshold f ≤ 20000 := Nat.findGreatest_le _
        rcases hsus with ⟨hs0, hl1⟩ | ⟨hsl, hfl⟩
        · subst hs0; subst hl1
          refine ⟨?_, by omega⟩
          rcases hhi with h20 | hflt
          · omega
          · have hTlt : crossoverThreshold f < hi :=
              crossover_lt_of_exceeds f hf hi (by omega) hflt
            omega
        · subst hsl
          have hTge : sus ≤ crossoverThreshold f := Nat.le_findGreatest (by omega) hfl
          refine ⟨?_, hTge⟩
          rcases hhi with h20 | hflt
          · omega
          · have hTlt : crossoverThreshold f < hi :=
              crossover_lt_of_exceeds f hf hi (by omega) hflt
            omega

/-- C4: Sustainable-rate binary search convergence.  The search of
start_sustainable_rate_test keeps its bounds inside [1, 20000], probes the
midpoint, moves the lower bound up and records the probe exactly when the
measured loss rate is at most the 5 percent tolerance, moves the upper
bound down otherwise, and stops once the interval width is at most 10 (all
of which is the definition of sustainableSearch); for every link whose
loss rate is a monotone function of the offered rate, the returned rate is
within 10 of the crossover threshold, never exceeding it. -/
theorem sustainable_rate_convergence_ok (f : ℕ → ℚ) (hf : Monotone f) :
    crossoverThreshold f ≤ startSustainableRateTest f + 10
    ∧ startSustainableRateTest f ≤ crossoverThreshold f := by
  have h := sustainableSearch_inv f hf 20000 1 20000 0 (by omega) (by omega)
    (by omega) (by omega) (Or.inl rfl) (Or.inl ⟨rfl, rfl⟩)
  simpa [startSustainableRateTest] using h

theorem sustainable_rate_convergence_ok_witness :
    Monotone (fun r : ℕ => (r : ℚ) / 100)
    ∧ (crossoverThreshold (fun r : ℕ => (r : ℚ) / 100)
        ≤ startSustainableRateTest (fun r : ℕ => (r : ℚ) / 100) + 10
      ∧ startSustainableRateTest (fun r : ℕ => (r : ℚ) / 100)
        ≤ crossoverThreshold (fun r : ℕ => (r : ℚ) / 100)) := by
  have hm : Monotone (fun r : ℕ => (r : ℚ) / 100) := by
    intro a b hab
    have hc : (a : ℚ) ≤ b := by exact_mod_cast hab
    have : (a : ℚ) / 100 ≤ (b : ℚ) / 100 := by linarith
    simpa using this
  exact ⟨hm, sustainable_rate_convergence_ok (fun r : ℕ => (r : ℚ) / 100) hm⟩

/-- Folding min never rises above the accumulator. -/
theorem foldl_min_le_init (t : List ℚ) (a : ℚ) : t.foldl Min.min a ≤ a := by
  induction t generalizing a with
  | nil => simp
  | cons b u ih =>
      calc List.foldl Min.min (Min.min a b) u ≤ Min.min a b := ih _
        _ ≤ a := min_le_left _ _

/-- Folding min never rises above any list element. -/
theorem foldl_min_le_mem (t : List ℚ) (a x : ℚ) (hx : x ∈ t) :
    t.foldl Min.min a ≤ x := by
  induction t generalizing a with
  | nil => cases hx
  | cons b u ih =>
      rcases List.mem_cons.mp hx with h | h
      · subst h
        exact le_trans (foldl_min_le_init u _) (min_le_right _ _)
      · exact ih _ h

/-- Python min is a lower bound of every element. -/
theorem pyListMin_le (l : List ℚ) (x : ℚ) (hx : x ∈ l) : pyListMin l ≤ x := by
  cases l with
  | nil => cases hx
  | cons a t =>
      rcases List.mem_cons.mp hx with h | h
      · rw [h]; exact foldl_min_le_init t a
      · exact foldl_min_le_mem t a x h

/-- Folding max never drops below the accumulator. -/
theorem init_le_foldl_max (t : List ℚ) (a : ℚ) : a ≤ t.foldl Max.max a := by
  induction t generalizing a with
  | nil => simp
  | cons b u ih =>
      calc a ≤ Max.max a b := le_max_left _ _
        _ ≤ List.foldl Max.max (Max.max a b) u := ih _

/-- Folding max never drops below any list element. -/
theorem mem_le_foldl_max (t : List ℚ) (a x : ℚ) (hx : x ∈ t) :
    x ≤ t.foldl Max.max a := by
  induction t generalizing a with
  | nil => cases hx
  | cons b u ih =>
      rcases List.mem_cons.mp hx with h | h
      · subst h
        exact le_trans (le_max_right _ _) (init_le_foldl_max u _)
      · exact ih _ h

/-- Python max is an upper bound of every element. -/
theorem le_pyListMax (l : List ℚ) (x : ℚ) (hx : x ∈ l) : x ≤ pyListMax l := by
  cases l with
  | nil => cases hx
  | cons a t =>
      rcases List.mem_cons.mp hx with h | h
      · rw [h]; exact init_le_foldl_max t a
      · exact mem_le_foldl_max t a x h

/-- The mean of a non-empty list lies between its min and its max. -/
theorem listMean_bounds (l : List ℚ) (hne : l ≠ []) :
    pyListMin l ≤ listMean l ∧ listMean l ≤ pyListMax l := by
  have hlen : 0 < (l.length : ℚ) := by
    have : 0 < l.length := List.length_pos.mpr hne
    exact_mod_cast this
  have hup : l.sum ≤ (l.length : ℚ) * pyListMax l := by
    have := List.sum_le_card_nsmul l (pyListMax l) (fun x hx => le_pyListMax l x hx)
    simpa [nsmul_eq_mul] using this
  have hlow : (l.length : ℚ) * pyListMin l ≤ l.sum := by
    have := List.card_nsmul_le_sum l (pyListMin l) (fun x hx => pyListMin_le l x hx)
    simpa [nsmul_eq_mul] using this
  unfold listMean
  constructor
  · rw [le_div_iff₀ hlen]; linarith
  · rw [div_le_iff₀ hlen]; linarith

/-- Any in-range position of the sorted copy of a list holds one of its
elements. -/
theorem mergeSort_getD_mem (l : List ℚ) (i : ℕ) (hi : i < l.length) :
    (l.mergeSort (fun a b => a ≤ b)).getD i 0 ∈ l := by
  have hperm := List.mergeSort_perm l (fun a b => a ≤ b)
  have hlen : (l.mergeSort (fun a b => a ≤ b)).length = l.length := hperm.length_eq
  have hi2 : i < (l.mergeSort (fun a b => a ≤ b)).length := by omega
  rw [List.getD_eq_getElem?_getD, List.getElem?_eq_getElem hi2]
  exact hperm.mem_iff.mp (List.getElem_mem hi2)

/-- The median of a non-empty list lies between its min and its max. -/
theorem listMedian_bounds (l : List ℚ) (hne : l ≠ []) :
    pyListMin l ≤ listMedian l ∧ listMedian l ≤ pyListMax l := by
  have hlen : 0 < l.length := List.length_pos.mpr hne
  dsimp only [listMedian]
  split_ifs with hodd
  · have hmem := mergeSort_getD_mem l (l.length / 2) (by omega)
    exact ⟨pyListMin_le l _ hmem, le_pyListMax l _ hmem⟩
  · have h2 : 2 ≤ l.length := by omega
    have hmem1 := mergeSort_getD_mem l (l.length / 2 - 1) (by omega)
    have hmem2 := mergeSort_getD_mem l (l.length / 2) (by omega)
    have b1 := pyListMin_le l _ hmem1
    have b2 := le_pyListMax l _ hmem1
    have b3 := pyListMin_le l _ hmem2
    have b4 := le_pyListMax l _ hmem2
    constructor <;> linarith

/-- The mean of a constant list is the constant. -/
theorem listMean_const (l : List ℚ) (c : ℚ) (hne : l ≠ [])
    (hc : ∀ x ∈ l, x = c) : listMean l = c := by
  have hsum : l.sum = (l.length : ℚ) * c := by
    have := List.sum_eq_card_nsmul l c hc
    simpa [nsmul_eq_mul] using this
  have hlen : (l.length : ℚ) ≠ 0 := by
    have : 0 < l.length := List.length_pos.mpr hne
    positivity
  unfold listMean
  rw [hsum, mul_comm, mul_div_assoc, div_self hlen, mul_one]

/-- The sample variance of a constant list vanishes. -/
theorem sampleVariance_const (l : List ℚ) (c : ℚ) (hne : l ≠ [])
    (hc : ∀ x ∈ l, x = c) : sampleVariance l = 0 := by
  have hzero : (l.map (fun x => (x - listMean l) ^ 2)).sum = 0 := by
    apply List.sum_eq_zero
    intro x hx
    rcases List.mem_map.mp hx with ⟨a, ha, rfl⟩
    rw [hc a ha, listMean_const l c hne hc]
    ring
  unfold sampleVariance
  rw [hzero, zero_div]

/-- C3: Statistics summarize correctness.  For every non-empty numeric
sequence the summary of _calculate_statistics satisfies
min ≤ median ≤ max and min ≤ mean ≤ max, and its standard deviation is 0
for every constant sequence (including singletons, via the len > 1 guard);
for the empty sequence every field is 0 and no error is raised (the
function is total). -/
theorem calculate_statistics_summary_ok (values : List ℚ) (hne : values ≠ []) :
    (calculateStatistics values).min ≤ (calculateStatistics values).median
    ∧ (calculateStatistics values).median ≤ (calculateStatistics values).max
    ∧ (calculateStatistics values).min ≤ (calculateStatistics values).mean
    ∧ (calculateStatistics values).mean ≤ (calculateStatistics values).max
    ∧ (∀ c : ℚ, (∀ x ∈ values, x = c) → (calculateStatistics values).std = 0)
    ∧ (calculateStatistics []).min = 0 ∧ (calculateStatistics []).max = 0
    ∧ (calculateStatistics []).mean = 0 ∧ (calculateStatistics []).std = 0
    ∧ (calculateStatistics []).median = 0 := by
  have hmed := listMedian_bounds values hne
  have hmean := listMean_bounds values hne
  unfold calculateStatistics
  rw [if_neg hne]
  refine ⟨hmed.1, hmed.2, hmean.1, hmean.2, ?_, by simp, by simp, by simp, by simp,
    by simp⟩
  intro c hc
  show (if values.length ≤ 1 then (0 : ℝ) else Real.sqrt (sampleVariance values)) = 0
  split_ifs with hlen
  · rfl
  · rw [sampleVariance_const values c hne hc]
    simp

theorem calculate_statistics_summary_ok_witness :
    (([2, 2] : List ℚ) ≠ [])
    ∧ ((calculateStatistics [2, 2]).min ≤ (calculateStatistics [2, 2]).median
      ∧ (calculateStatistics [2, 2]).median ≤ (calculateStatistics [2, 2]).max
      ∧ (calculateStatistics [2, 2]).min ≤ (calculateStatistics [2, 2]).mean
      ∧ (calculateStatistics [2, 2]).mean ≤ (calculateStatistics [2, 2]).max
      ∧ (∀ c : ℚ, (∀ x ∈ ([2, 2] : List ℚ), x = c) → (calculateStatistics [2, 2]).std = 0)
      ∧ (calculateStatistics []).min = 0 ∧ (calculateStatistics []).max = 0
      ∧ (calculateStatistics []).mean = 0 ∧ (calculateStatistics []).std = 0
      ∧ (calculateStatistics []).median = 0) :=
  ⟨by decide, calculate_statistics_summary_ok [2, 2] (by decide)⟩

/-- Stopping always leaves the running flag cleared. -/
theorem stopScenario_not_running (s : OrchState) :
    (stopScenario s).1.is_running = false := by
  unfold stopScenario cleanupAllProcesses
  cases h : s.is_running <;> simp [h]

/-- The invariant holds vacuously for any idle state. -/
theorem orchInv_of_not_running (s : OrchState) (h : s.is_running = false) :
    OrchInv s := by
  intro hrun
  rw [h] at hrun
  cases hrun

/-- Publishing a progress record preserves the invariant. -/
theorem publishPhaseProgress_inv (s : OrchState) (hs : OrchInv s) :
    OrchInv (publishPhaseProgress s) := by
  unfold publishPhaseProgress
  split_ifs with h
  · intro hrun
    obtain ⟨sc, h1, h2, h3, h4⟩ := hs (by simpa using hrun)
    exact ⟨sc, by simpa using h1, by simpa using h2, by simpa using h3,
      by simpa using h4⟩
  · exact hs

/-- Starting the current phase only touches the phase start time, the
active-process table, the message parameter log and the progress count. -/
theorem startCurrentPhase_fields (env : GenEnv) (t : ℚ) (s : OrchState) :
    (startCurrentPhase env t s).1.current_scenario = s.current_scenario
    ∧ (startCurrentPhase env t s).1.current_phase_index = s.current_phase_index
    ∧ (startCurrentPhase env t s).1.is_running = s.is_running
    ∧ (startCurrentPhase env t s).1.scenario_start_time = s.scenario_start_time := by
  simp only [startCurrentPhase, publishPhaseProgress]
  split
  next => simp
  next sc heq =>
    split
    next => simp
    next ph hph => split_ifs <;> simp_all

/-- A successful phase start implies the phase index was in range and sets
the phase start time to the entry wall time. -/
theorem startCurrentPhase_success (env : GenEnv) (t : ℚ) (s : OrchState)
    (h : (startCurrentPhase env t s).2 = true) :
    (∃ sc, s.current_scenario = some sc
        ∧ s.current_phase_index < sc.phases.length)
    ∧ (startCurrentPhase env t s).1.phase_start_time = some t := by
  unfold startCurrentPhase at h ⊢
  split at h
  next => simp at h
  next sc heq =>
    split at h
    next => simp at h
    next ph hph =>
      have hlt : s.current_phase_index < sc.phases.length := by
        by_contra hge
        rw [List.get?_eq_none.mpr (by omega)] at hph
        cases hph
      refine ⟨⟨sc, heq, hlt⟩, ?_⟩
      simp only [publishPhaseProgress]
      split_ifs <;> simp_all

/-- Completing a scenario preserves the invariant. -/
theorem completeScenario_inv (s : OrchState) (hs : OrchInv s) :
    OrchInv (completeScenario s).1 := by
  unfold completeScenario
  split
  · split
    · exact hs
    · exact orchInv_of_not_running _ (stopScenario_not_running s)
  · exact orchInv_of_not_running _ (stopScenario_not_running s)

/-- Starting a scenario internally establishes the invariant from any
state. -/
theorem startScenarioInternal_inv (env : GenEnv) (t : ℚ) (s : OrchState)
    (sc : TestScenario) : OrchInv (startScenarioInternal env t s sc).1 := by
  simp only [startScenarioInternal]
  split_ifs with hr
  · obtain ⟨⟨sc2, hsc2, hlt⟩, hpst⟩ := startCurrentPhase_success _ _ _ hr
    have hf := startCurrentPhase_fields env t
      { s with current_scenario := some sc, current_phase_index := 0,
               scenario_start_time := some t, is_running := true,
               shutdown_requested := false }
    intro _
    refine ⟨sc2, ?_, ?_, ?_, ?_⟩
    · exact hf.1.trans hsc2
    · have h2 := hf.2.1
      simp only at h2
      rw [h2]
      simpa using hlt
    · have h3 := hf.2.2.2
      simp only at h3
      rw [h3]
      rfl
    · rw [hpst]
      rfl
  · exact orchInv_of_not_running _ rfl

/-- Transitioning to the next phase preserves the invariant. -/
theorem transitionToNextPhase_inv (env : GenEnv) (t : ℚ) (s : OrchState)
    (hs : OrchInv s) : OrchInv (transitionToNextPhase env t s).1 := by
  simp only [transitionToNextPhase]
  split
  next heq =>
      intro hrun
      obtain ⟨sc, hsc, -⟩ := hs (by simpa using hrun)
      have heq2 : s.current_scenario = none := heq
      rw [heq2] at hsc
      cases hsc
  next sc heq =>
      split_ifs with hlen hr
      · unfold completeScenario
        split
        · split
          next hst =>
              intro hrun
              obtain ⟨sc2, hsc2, hlt2, hsst, hpst⟩ := hs (by simpa using hrun)
              have hst2 : s.scenario_start_time = none := hst
              rw [hst2] at hsst
              cases hsst
          next => exact orchInv_of_not_running _ (stopScenario_not_running _)
        · exact orchInv_of_not_running _ (stopScenario_not_running _)
      · obtain ⟨⟨sc2, hsc2, hlt2⟩, hpst⟩ := startCurrentPhase_success _ _ _ hr
        have hf := startCurrentPhase_fields env t
          { s with current_phase_index := s.current_phase_index + 1 }
        intro hrun
        have hruns : s.is_running = true := by
          have h3 := hf.2.2.1
          rw [h3] at hrun
          simpa using hrun
        obtain ⟨sc3, hsc3, hlt3, hsst, hpst3⟩ := hs hruns
        refine ⟨sc2, hf.1.trans hsc2, ?_, ?_, ?_⟩
        · rw [hf.2.1]
          exact hlt2
        · have h4 := hf.2.2.2
          simp only at h4
          rw [h4]
          simpa using hsst
        · rw [hpst]
          rfl
      · exact orchInv_of_not_running _ (stopScenario_not_running _)

/-- The phase-duration check of the monitoring tick preserves the
invariant. -/
theorem monitorPhaseCheck_inv (env : GenEnv) (t : ℚ) (s : OrchState)
    (hs : OrchInv s) : OrchInv (monitorPhaseCheck env t s).1 := by
  unfold monitorPhaseCheck
  split
  · exact hs
  · split
    · exact hs
    · split
      · exact hs
      · split_ifs with hdur
        · exact transitionToNextPhase_inv env t s hs
        · exact hs

/-- The redundant total-duration check of the monitoring tick preserves the
invariant. -/
theorem monitorScenarioCheck_inv (t : ℚ) (s : OrchState) (hs : OrchInv s) :
    OrchInv (monitorScenarioCheck t s).1 := by
  unfold monitorScenarioCheck
  split
  · exact hs
  · split
    · exact hs
    · split_ifs with hdur
      · exact completeScenario_inv s hs
      · exact hs

/-- The whole monitoring tick preserves the invariant. -/
theorem monitorScenarioProgress_inv (env : GenEnv) (t : ℚ) (s : OrchState)
    (hs : OrchInv s) : OrchInv (monitorScenarioProgress env t s).1 := by
  unfold monitorScenarioProgress
  split_ifs with hguard
  · exact hs
  · split
    next s1 e hp =>
        have h1 := monitorPhaseCheck_inv env t s hs
        rw [hp] at h1
        exact h1
    next s1 hp =>
        have h1 := monitorPhaseCheck_inv env t s hs
        rw [hp] at h1
        split
        next s2 e2 hq =>
            have h2 := monitorScenarioCheck_inv t s1 h1
            rw [hq] at h2
            exact h2
        next s2 hq =>
            have h2 := monitorScenarioCheck_inv t s1 h1
            rw [hq] at h2
            exact publishPhaseProgress_inv s2 h2

/-- Starting a scenario by name preserves the invariant. -/
theorem startScenario_inv (scenarios : List (String × TestScenario))
    (autoB : Bool) (env : GenEnv) (t : ℚ) (name : String) (s : OrchState)
    (hs : OrchInv s) :
    OrchInv (startScenario scenarios autoB env t s name).1 := by
  unfold startScenario
  split_ifs with hrun hbase
  · exact hs
  · split
    · exact hs
    · exact orchInv_of_not_running _ (by simpa using hrun)
  · split
    · exact hs
    · exact startScenarioInternal_inv env t s _

/-- C10: Orchestrator state invariant.  Whenever is_running is true the
current scenario is a defined scenario, the phase index is in range (and
both start timestamps are set, which is what makes the invariant hold
inductively); the idle initial state satisfies it, and start_scenario,
every monitoring tick, every phase transition and stop_scenario preserve
it, so the phase lookup performed under the is_running guard always
succeeds. -/
theorem orchestrator_phase_invariant_ok
    (scenarios : List (String × TestScenario)) (autoB : Bool) (env : GenEnv)
    (t : ℚ) (name : String) (s : OrchState) (hs : OrchInv s) :
    OrchInv initialOrchState
    ∧ OrchInv (startScenario scenarios autoB env t s name).1
    ∧ OrchInv (monitorScenarioProgress env t s).1
    ∧ OrchInv (transitionToNextPhase env t s).1
    ∧ OrchInv (stopScenario s).1
    ∧ (s.is_running = true → ∃ sc, s.current_scenario = some sc
        ∧ (sc.phases.get? s.current_phase_index).isSome = true) := by
  refine ⟨?_, startScenario_inv scenarios autoB env t name s hs,
    monitorScenarioProgress_inv env t s hs, transitionToNextPhase_inv env t s hs,
    orchInv_of_not_running _ (stopScenario_not_running s), ?_⟩
  · intro h
    simp [initialOrchState] at h
  · intro hrun
    obtain ⟨sc, hsc, hlt, -, -⟩ := hs hrun
    exact ⟨sc, hsc, by rw [List.get?_eq_get hlt]; rfl⟩

theorem orchestrator_phase_invariant_ok_witness :
    OrchInv initialOrchState
    ∧ (OrchInv initialOrchState
      ∧ OrchInv (startScenario c2Catalogue false fullEnv 0 initialOrchState
          "two_phase").1
      ∧ OrchInv (monitorScenarioProgress fullEnv 0 initialOrchState).1
      ∧ OrchInv (transitionToNextPhase fullEnv 0 initialOrchState).1
      ∧ OrchInv (stopScenario initialOrchState).1
      ∧ (initialOrchState.is_running = true →
          ∃ sc, initialOrchState.current_scenario = some sc
            ∧ (sc.phases.get? initialOrchState.current_phase_index).isSome = true)) := by
  have hInit : OrchInv initialOrchState := by
    intro h
    simp [initialOrchState] at h
  exact ⟨hInit, orchestrator_phase_invariant_ok c2Catalogue false fullEnv 0
    "two_phase" initialOrchState hInit⟩
